import Mathlib

/-
Verification of the modal editing engine of tui-logue
(src/app/ui/editor/mod.rs) against its natural-language specification.

The editor state, the entry box, the mode state machine, the motion
dispatch and the clipboard bridge are embedded from the Rust source.
The text-area widget (tui_textarea), the clipboard capability (arboard),
the `App`/`DataProvider` store and the key-event types are external to
the provided sources; they are modelled from the specification (and the
widget library's documented behaviour) as explicit functional state.
Character columns are char indices, as in the widget library.
-/

namespace TuiLogue

/-- String take on char indices (the widget library's columns are char
positions, so the model works on `String.data`). -/
def strTake (s : String) (n : Nat) : String :=
  String.mk (s.data.take n)

/-- String drop on char indices. -/
def strDrop (s : String) (n : Nat) : String :=
  String.mk (s.data.drop n)

/-- Split a character list on a separator (structural counterpart of
`String.splitOn` for a single-character separator). -/
def splitOnChar (sep : Char) : List Char → List (List Char)
  | [] => [[]]
  | c :: rest =>
      let r := splitOnChar sep rest
      if c = sep then [] :: r
      else
        match r with
        | [] => [[c]]
        | h :: t => (c :: h) :: t

/-- Split a string on newlines; like Rust `split('\n')`, the result is
never empty and a trailing newline yields a trailing empty piece. -/
def strSplitNewline (s : String) : List String :=
  (splitOnChar '\n' s.data).map String.mk

/-- Whitespace trim on both ends (Rust `str::trim`). -/
def strTrim (s : String) : String :=
  String.mk (((s.data.dropWhile Char.isWhitespace).reverse.dropWhile
    Char.isWhitespace).reverse)

/-- Modelled from the spec: key codes of the input events the editor
receives (crossterm `KeyCode`, used by `crate::app::keymap::Input`,
not part of the provided sources). Only the codes the embedded
handlers inspect are distinguished. -/
inductive KeyCode where
  | Char (c : Char)
  | Enter
  | Backspace
  | Left
  | Right
  | Up
  | Down
  | Home
  | End
  | PageUp
  | PageDown
  | Esc
  deriving DecidableEq, Repr

/-- Modelled from the spec: the modifier set carried by an input event. -/
structure Modifiers where
  ctrl : Bool
  alt : Bool
  shift : Bool
  deriving DecidableEq, Repr

def Modifiers.isEmpty (m : Modifiers) : Bool :=
  !m.ctrl && !m.alt && !m.shift

def noMods : Modifiers := ⟨false, false, false⟩

/-- Modelled from the spec: `crate::app::keymap::Input`, a key code plus
modifiers. `KeyEvent::from(&Input)` keeps exactly these two fields, so
the model passes `Input` itself where the source builds a `KeyEvent`. -/
structure Input where
  key_code : KeyCode
  modifiers : Modifiers
  deriving DecidableEq, Repr

/-- Cursor motions of the text-area widget used by the editor
(tui_textarea `CursorMove`; external library, modelled from its
documented behaviour: motions move the cursor and never touch lines). -/
inductive CursorMove where
  | Back
  | Forward
  | Up
  | Down
  | Head
  | End
  | WordForward
  | WordBack
  | Bottom
  | Top
  deriving DecidableEq, Repr

/-- Scroll requests of the text-area widget (tui_textarea `Scrolling`). -/
inductive Scrolling where
  | HalfPageDown
  | HalfPageUp
  | PageDown
  | PageUp
  deriving DecidableEq, Repr

/-- The text-area widget state (tui_textarea `TextArea`; external
library, modelled from its documented behaviour): ordered lines, a
(row, col) cursor, an optional selection anchor and the yank register.
The undo/redo history and the viewport are not modelled; no claim
under verification mentions them. -/
structure TextArea where
  lines : List String
  cursor : Nat × Nat
  selectionStart : Option (Nat × Nat)
  yank : String
  deriving DecidableEq, Repr

/-- Line at row `r` (out-of-range reads give the empty line). -/
def lineAt (ls : List String) (r : Nat) : String :=
  ls.getD r ""

/-- The widget guarantees at least one line: an empty line list is
normalised to a single empty line. -/
def TextArea.new (ls : List String) : TextArea :=
  ⟨if ls.isEmpty then [""] else ls, (0, 0), none, ""⟩

/-- `TextArea::default()` is an empty one-line text area. -/
def TextArea.empty : TextArea :=
  TextArea.new [""]

/-- Column reached by a word-forward motion inside one line: skip the
rest of the current space-separated token, then the following spaces. -/
def wordForwardCol (s : String) (c : Nat) : Nat :=
  let cs := s.data
  let afterTok := c + ((cs.drop c).takeWhile (fun ch => !(ch = ' '))).length
  afterTok + ((cs.drop afterTok).takeWhile (fun ch => ch = ' ')).length

/-- Column reached by a word-back motion inside one line: skip the
spaces before the cursor, then the token before them. -/
def wordBackCol (s : String) (c : Nat) : Nat :=
  let rev := (s.data.take c).reverse
  let beforeSpaces := (rev.takeWhile (fun ch => ch = ' ')).length
  let tok := ((rev.drop beforeSpaces).takeWhile (fun ch => !(ch = ' '))).length
  c - beforeSpaces - tok

/-- Cursor motion of the widget: only the cursor changes; lines,
selection anchor and yank register are untouched. -/
def TextArea.move_cursor (ta : TextArea) (m : CursorMove) : TextArea :=
  let r := ta.cursor.1
  let c := ta.cursor.2
  let n := ta.lines.length
  let len : Nat → Nat := fun i => (lineAt ta.lines i).data.length
  let cursor :=
    match m with
    | .Back =>
        if 0 < c then (r, c - 1)
        else if 0 < r then (r - 1, len (r - 1)) else (r, c)
    | .Forward =>
        if c < len r then (r, c + 1)
        else if r + 1 < n then (r + 1, 0) else (r, c)
    | .Up => if 0 < r then (r - 1, min c (len (r - 1))) else (r, c)
    | .Down => if r + 1 < n then (r + 1, min c (len (r + 1))) else (r, c)
    | .Head => (r, 0)
    | .End => (r, len r)
    | .WordForward =>
        if c < len r then (r, wordForwardCol (lineAt ta.lines r) c)
        else if r + 1 < n then (r + 1, 0) else (r, c)
    | .WordBack =>
        if 0 < c then (r, wordBackCol (lineAt ta.lines r) c)
        else if 0 < r then (r - 1, len (r - 1)) else (r, c)
    | .Bottom => (n - 1, min c (len (n - 1)))
    | .Top => (0, min c (len 0))
  { ta with cursor := cursor }

/-- Scrolling only moves the viewport, which is not part of the model. -/
def TextArea.scroll (ta : TextArea) (_s : Scrolling) : TextArea :=
  ta

def TextArea.start_selection (ta : TextArea) : TextArea :=
  { ta with selectionStart := some ta.cursor }

def TextArea.cancel_selection (ta : TextArea) : TextArea :=
  { ta with selectionStart := none }

def TextArea.is_selecting (ta : TextArea) : Bool :=
  ta.selectionStart.isSome

def TextArea.yank_text (ta : TextArea) : String :=
  ta.yank

/-- Position order on (row, col). -/
def posLe (a b : Nat × Nat) : Bool :=
  a.1 < b.1 || (a.1 = b.1 && a.2 ≤ b.2)

/-- Text of the span between two ordered positions. -/
def extractSpan (ls : List String) (s e : Nat × Nat) : String :=
  if s.1 = e.1 then strTake (strDrop (lineAt ls s.1) s.2) (e.2 - s.2)
  else
    let first := strDrop (lineAt ls s.1) s.2
    let mid := (ls.drop (s.1 + 1)).take (e.1 - s.1 - 1)
    let last := strTake (lineAt ls e.1) e.2
    String.intercalate "\n" ([first] ++ mid ++ [last])

/-- Lines after removing the span between two ordered positions. -/
def removeSpan (ls : List String) (s e : Nat × Nat) : List String :=
  if s.1 = e.1 then
    ls.set s.1 ((strTake (lineAt ls s.1) s.2) ++ (strDrop (lineAt ls s.1) e.2))
  else
    ls.take s.1
      ++ [(strTake (lineAt ls s.1) s.2) ++ (strDrop (lineAt ls e.1) e.2)]
      ++ ls.drop (e.1 + 1)

/-- Widget `cut`: removes the selected span into the yank register,
cancels the selection, and reports whether text was deleted. -/
def TextArea.cut (ta : TextArea) : TextArea × Bool :=
  match ta.selectionStart with
  | none => (ta, false)
  | some a =>
      let s := if posLe a ta.cursor then a else ta.cursor
      let e := if posLe a ta.cursor then ta.cursor else a
      if s = e then ({ ta with selectionStart := none }, false)
      else
        ({ lines := removeSpan ta.lines s e
           cursor := s
           selectionStart := none
           yank := extractSpan ta.lines s e }, true)

/-- Widget `copy`: yanks the selected span and cancels the selection,
leaving the lines untouched. -/
def TextArea.copy (ta : TextArea) : TextArea :=
  match ta.selectionStart with
  | none => ta
  | some a =>
      let s := if posLe a ta.cursor then a else ta.cursor
      let e := if posLe a ta.cursor then ta.cursor else a
      { ta with yank := extractSpan ta.lines s e, selectionStart := none }

/-- Widget `insert_str`: inserts a (possibly multi-line) string at the
cursor, returning whether the text area was modified; an empty string
is rejected and leaves the area untouched. -/
def TextArea.insert_str (ta : TextArea) (s : String) : TextArea × Bool :=
  if s = "" then (ta, false)
  else
    let r := ta.cursor.1
    let c := ta.cursor.2
    let cur := lineAt ta.lines r
    let pre := strTake cur c
    let post := strDrop cur c
    match strSplitNewline s with
    | [] => (ta, false)
    | [single] =>
        ({ ta with
            lines := ta.lines.set r (pre ++ single ++ post)
            cursor := (r, c + single.data.length) }, true)
    | first :: rest =>
        let lastPart := rest.getLastD ""
        let midParts := rest.dropLast
        ({ ta with
            lines := ta.lines.take r ++ [pre ++ first] ++ midParts
              ++ [lastPart ++ post] ++ ta.lines.drop (r + 1)
            cursor := (r + rest.length, lastPart.data.length) }, true)

/-- Widget `insert_newline`: splits the current line at the cursor. -/
def TextArea.insert_newline (ta : TextArea) : TextArea :=
  let r := ta.cursor.1
  let c := ta.cursor.2
  let cur := lineAt ta.lines r
  { ta with
      lines := ta.lines.take r ++ [strTake cur c, strDrop cur c]
        ++ ta.lines.drop (r + 1)
      cursor := (r + 1, 0) }

/-- Widget `paste`: inserts the yank register at the cursor. -/
def TextArea.paste (ta : TextArea) : TextArea × Bool :=
  ta.insert_str ta.yank

/-- Widget `delete_line_by_end`: deletes from the cursor to the end of
the line into the yank register; at end of line it joins the next line. -/
def TextArea.delete_line_by_end (ta : TextArea) : TextArea × Bool :=
  let r := ta.cursor.1
  let c := ta.cursor.2
  let cur := lineAt ta.lines r
  if c < cur.data.length then
    ({ ta with lines := ta.lines.set r (strTake cur c), yank := strDrop cur c }, true)
  else if r + 1 < ta.lines.length then
    ({ ta with
        lines := ta.lines.take r ++ [cur ++ lineAt ta.lines (r + 1)]
          ++ ta.lines.drop (r + 2)
        yank := "\n" }, true)
  else (ta, false)

/-- Widget `delete_next_char`: deletes the character under the cursor;
at end of line it joins the next line. -/
def TextArea.delete_next_char (ta : TextArea) : TextArea × Bool :=
  let r := ta.cursor.1
  let c := ta.cursor.2
  let cur := lineAt ta.lines r
  if c < cur.data.length then
    ({ ta with lines := ta.lines.set r (strTake cur c ++ strDrop cur (c + 1)) }, true)
  else if r + 1 < ta.lines.length then
    ({ ta with
        lines := ta.lines.take r ++ [cur ++ lineAt ta.lines (r + 1)]
          ++ ta.lines.drop (r + 2) }, true)
  else (ta, false)

/-- Widget backspace: deletes the character before the cursor; at head
of line it joins with the previous line. -/
def TextArea.delete_char (ta : TextArea) : TextArea × Bool :=
  let r := ta.cursor.1
  let c := ta.cursor.2
  let cur := lineAt ta.lines r
  if 0 < c then
    ({ ta with
        lines := ta.lines.set r (strTake cur (c - 1) ++ strDrop cur c)
        cursor := (r, c - 1) }, true)
  else if 0 < r then
    let prev := lineAt ta.lines (r - 1)
    ({ ta with
        lines := ta.lines.take (r - 1) ++ [prev ++ cur] ++ ta.lines.drop (r + 1)
        cursor := (r - 1, prev.data.length) }, true)
  else (ta, false)

/-- Widget generic `input` handler for the key events this embedding
routes to it (default navigation keys, plain characters, Enter,
Backspace); it returns whether the text was modified. Unmodelled keys
are no-ops, which is sound for every call site in the embedded code. -/
def TextArea.input (ta : TextArea) (i : Input) : TextArea × Bool :=
  let ctrl := i.modifiers.ctrl
  let alt := i.modifiers.alt
  match i.key_code with
  | .Char c =>
      if ctrl || alt then
        if ctrl && c = 'p' then (ta.move_cursor .Up, false)
        else if ctrl && c = 'n' then (ta.move_cursor .Down, false)
        else if ctrl && c = 'f' then (ta.move_cursor .Forward, false)
        else if ctrl && c = 'b' then (ta.move_cursor .Back, false)
        else if ctrl && c = 'e' then (ta.move_cursor .End, false)
        else if ctrl && c = 'a' then (ta.move_cursor .Head, false)
        else if alt && c = 'f' then (ta.move_cursor .WordForward, false)
        else if alt && c = 'b' then (ta.move_cursor .WordBack, false)
        else (ta, false)
      else ta.insert_str (String.mk [c])
  | .Enter => (ta.insert_newline, true)
  | .Backspace => ta.delete_char
  | .Left => (ta.move_cursor .Back, false)
  | .Right => (ta.move_cursor .Forward, false)
  | .Up => (ta.move_cursor .Up, false)
  | .Down => (ta.move_cursor .Down, false)
  | .Home => (ta.move_cursor .Head, false)
  | .End => (ta.move_cursor .End, false)
  | .PageUp => (ta, false)
  | .PageDown => (ta, false)
  | .Esc => (ta, false)

/-- Editor modes (`EditorMode` in the source). -/
inductive EditorMode where
  | Normal
  | Insert
  | Visual
  deriving DecidableEq, Repr

/-- Result of an entry-box input (`EntryBoxInputResult` in the source). -/
inductive EntryBoxInputResult where
  | Handled
  | Submitted (s : String)
  deriving DecidableEq, Repr

/-- The single-line capture field above the content area (`EntryBox`). -/
structure EntryBox where
  input_area : TextArea
  is_active : Bool
  deriving DecidableEq, Repr

/-- `EntryBox::new()`: empty single line, active. -/
def EntryBox.new : EntryBox :=
  ⟨TextArea.new [""], true⟩

/-- `EntryBox::handle_input`: Enter grabs the first line trimmed,
clears the box and submits when non-empty; every other key is consumed
by the underlying single-line text state. -/
def EntryBox.handle_input (box : EntryBox) (input : Input) : EntryBox × EntryBoxInputResult :=
  match input.key_code with
  | .Enter =>
      let line := strTrim (box.input_area.lines.headD "")
      let box := { box with input_area := TextArea.new [""] }
      if !(line = "") then (box, .Submitted line) else (box, .Handled)
  | _ =>
      ({ box with input_area := (box.input_area.input input).1 }, .Handled)

/-- Modelled from the spec: a stored entry as read through the
`DataProvider` capability (only its content is relevant here). -/
structure Entry where
  content : String
  deriving DecidableEq, Repr

/-- Modelled from the spec: the settings capability; the one relevant
flag is `sync_os_clipboard`. -/
structure Settings where
  sync_os_clipboard : Bool
  deriving DecidableEq, Repr

/-- Modelled from the spec: the `App` collaborator, restricted to the
capabilities the editor consumes (fetch current entry, fetch entry by
id, settings). -/
structure App where
  current_entry : Option Entry
  entries : List (Nat × Entry)
  settings : Settings
  deriving DecidableEq, Repr

def App.get_current_entry (app : App) : Option Entry :=
  app.current_entry

def App.get_entry (app : App) (id : Nat) : Option Entry :=
  (app.entries.find? (fun p => p.1 == id)).map Prod.snd

/-- Modelled from the spec: the return type of the input handlers
(`runner::HandleInputReturnType`, not part of the provided sources). -/
inductive HandleInputReturnType where
  | Handled
  | NotFound
  deriving DecidableEq, Repr

/-- Modelled from the spec: `ClipboardOperation` from the commands
module (not part of the provided sources). -/
inductive ClipboardOperation where
  | Copy
  | Cut
  | Paste
  deriving DecidableEq, Repr

/-- Modelled from the spec: the OS clipboard capability. `new_err` is
the failure of opening the clipboard, `get_result` the outcome of
reading it and `set_err` the failure of writing it; failures carry the
underlying error detail string. -/
structure ClipEnv where
  new_err : Option String
  get_result : Except String String
  set_err : Option String

/-- `map_clipboard_error`: wraps an OS clipboard error detail in the
human-readable message of the source. -/
def mapClipboardError (d : String) : String :=
  "Error while communicating with the operation system clipboard.\nError Details: " ++ d

/-- Error message of the paste-rejected branch in `exec_os_clipboard`. -/
def pasteRejectMsg : String :=
  "Text can\x27t be pasted into editor"

/-- The editor state (`Editor` in the source, rendering fields aside). -/
structure Editor where
  text_area : TextArea
  entry_box : EntryBox
  mode : EditorMode
  is_active : Bool
  is_dirty : Bool
  has_unsaved : Bool
  deriving DecidableEq, Repr

/-- `Editor::new()`. -/
def Editor.new : Editor :=
  ⟨TextArea.empty, EntryBox.new, .Normal, false, false, false⟩

/-- `Editor::get_content`: newline-joined buffer snapshot. -/
def Editor.get_content (ed : Editor) : String :=
  String.intercalate "\n" ed.text_area.lines

/-- `Editor::refresh_has_unsaved`: recompute `has_unsaved` from
`is_dirty` and the diff against the backing entry content. -/
def Editor.refresh_has_unsaved (app : App) (ed : Editor) : Editor :=
  { ed with
      has_unsaved :=
        match ed.is_dirty with
        | true =>
            match app.get_current_entry with
            | some entry => ed.is_dirty && (entry.content != ed.get_content)
            | none => false
        | false => false }

/-- `Editor::set_editor_mode`: couples mode changes to the selection
(Normal to Visual starts a selection, leaving Visual cancels it). -/
def Editor.set_editor_mode (ed : Editor) (mode : EditorMode) : Editor :=
  let ta :=
    match ed.mode, mode with
    | .Normal, .Visual => ed.text_area.start_selection
    | .Visual, .Normal => ed.text_area.cancel_selection
    | .Visual, .Insert => ed.text_area.cancel_selection
    | _, _ => ed.text_area
  { ed with text_area := ta, mode := mode }

/-- Two-digit rendering of an hour or minute field. -/
def pad2 (n : Nat) : String :=
  if n < 10 then "0" ++ toString n else toString n

/-- The `now.format("[%H:%M]")` timestamp of `append_entry`, with the
wall-clock time passed in as data. -/
def fmtTimestamp (now : Nat × Nat) : String :=
  "[" ++ pad2 now.1 ++ ":" ++ pad2 now.2 ++ "]"

/-- `Editor::append_entry`: formats `<timestamp> <entry>`, inserts it at
the cursor followed by a newline (rebuilding the text area with the
line pushed at the end when the insertion is rejected), marks dirty and
recomputes `has_unsaved`. -/
def Editor.append_entry (ed : Editor) (now : Nat × Nat) (entry : String) (app : App) : Editor :=
  let line := fmtTimestamp now ++ " " ++ entry
  let ed :=
    match ed.text_area.insert_str line with
    | (ta, true) => { ed with text_area := ta.insert_newline }
    | (_, false) => { ed with text_area := TextArea.new (ed.text_area.lines ++ [line]) }
  Editor.refresh_has_unsaved app { ed with is_dirty := true }

/-- Rust `str::lines()`: split on newline, dropping one trailing empty
piece (so a trailing newline yields no extra empty line). -/
def rustLines (s : String) : List String :=
  let p := strSplitNewline s
  if p.getLastD "x" = "" then p.dropLast else p

/-- `Editor::set_current_entry`: rebuild the text area from the store
content (cursor to bottom-end, dirty cleared) when the entry is found,
or from an empty default otherwise, then recompute `has_unsaved`.
The auto-commit side effect spawned at the end of the source function
is fire-and-forget external I/O and does not touch the editor state. -/
def Editor.set_current_entry (ed : Editor) (entry_id : Option Nat) (app : App) : Editor :=
  let step : Editor × TextArea :=
    match entry_id with
    | some id =>
        match app.get_entry id with
        | some entry =>
            let lines := rustLines entry.content
            (({ ed with is_dirty := false }),
              ((TextArea.new lines).move_cursor .Bottom).move_cursor .End)
        | none => (ed, TextArea.empty)
    | none => (ed, TextArea.empty)
  Editor.refresh_has_unsaved app { step.1 with text_area := step.2 }

/-- `Editor::exec_os_clipboard`: opens the OS clipboard and executes a
copy, cut or paste against it. The Rust method mutates `self` in place
before a fallible call can error, so the embedding returns the editor
state next to the `Result`. The buffer-insert step of Paste is passed
in as `insertF` (the widget capability deciding whether the content can
be inserted); `none` is the rejected insertion. -/
def Editor.exec_os_clipboard (ed : Editor) (env : ClipEnv)
    (insertF : String → TextArea → Option TextArea)
    (op : ClipboardOperation) : Editor × Except String HandleInputReturnType :=
  match env.new_err with
  | some d => (ed, .error (mapClipboardError d))
  | none =>
      match op with
      | .Copy =>
          let ta := ed.text_area.copy
          let _selected := ta.yank_text
          let ed := { ed with text_area := ta }
          match env.set_err with
          | some d => (ed, .error (mapClipboardError d))
          | none => (ed, .ok .Handled)
      | .Cut =>
          let r := ed.text_area.cut
          let ed :=
            if r.2 then
              { ed with text_area := r.1, is_dirty := true, has_unsaved := true }
            else { ed with text_area := r.1 }
          match env.set_err with
          | some d => (ed, .error (mapClipboardError d))
          | none => (ed, .ok .Handled)
      | .Paste =>
          match env.get_result with
          | .error d => (ed, .error (mapClipboardError d))
          | .ok content =>
              if content = "" then (ed, .ok .Handled)
              else
                match insertF content ed.text_area with
                | none => (ed, .error pasteRejectMsg)
                | some ta =>
                    ({ ed with text_area := ta, is_dirty := true, has_unsaved := true },
                      .ok .Handled)

/-- The real insertion capability: the widget's `insert_str`, which
rejects exactly the strings it does not modify the area for. -/
def realInsert (s : String) (ta : TextArea) : Option TextArea :=
  let r := ta.insert_str s
  if r.2 then some r.1 else none

/-- Free function `is_default_navigation`: arrow and page keys plus the
fixed Emacs-style chords, always routed to plain cursor movement. -/
def is_default_navigation (input : Input) : Bool :=
  let has_control := input.modifiers.ctrl
  let has_alt := input.modifiers.alt
  match input.key_code with
  | .Left => true
  | .Right => true
  | .Up => true
  | .Down => true
  | .Home => true
  | .End => true
  | .PageUp => true
  | .PageDown => true
  | .Char 'p' => has_control || has_alt
  | .Char 'n' => has_control || has_alt
  | .Char 'f' => !has_control && has_alt
  | .Char 'b' => !has_control && has_alt
  | .Char 'e' => has_control || has_alt
  | .Char 'a' => has_control || has_alt
  | .Char 'v' => has_control || has_alt
  | _ => false

/-- `Editor::handle_vim_motions`: the motion/command table (tier 3).
Errors of the clipboard bridge abort the remaining statements of the
matched arm but keep the mutations already made, as the Rust `?` does. -/
def Editor.handle_vim_motions (ed : Editor) (env : ClipEnv)
    (insertF : String → TextArea → Option TextArea)
    (input : Input) (sync_os_clipboard : Bool) : Editor × Except String Unit :=
  let has_control := input.modifiers.ctrl
  let move (m : CursorMove) : Editor × Except String Unit :=
    ({ ed with text_area := ed.text_area.move_cursor m }, .ok ())
  match input.key_code, has_control with
  | .Char 'h', false => move .Back
  | .Char 'j', false => move .Down
  | .Char 'k', false => move .Up
  | .Char 'l', false => move .Forward
  | .Char 'w', false => move .WordForward
  | .Char 'e', false => move .WordForward
  | .Char 'b', false => move .WordBack
  | .Char '^', false => move .Head
  | .Char '$', false => move .End
  | .Char 'D', false =>
      let ed := { ed with text_area := (ed.text_area.delete_line_by_end).1 }
      let r := ed.exec_os_clipboard env insertF .Copy
      (r.1, r.2.map (fun _ => ()))
  | .Char 'C', false =>
      let ed := { ed with text_area := (ed.text_area.delete_line_by_end).1 }
      match ed.exec_os_clipboard env insertF .Copy with
      | (ed, .error e) => (ed, .error e)
      | (ed, .ok _) => ({ ed with mode := .Insert }, .ok ())
  | .Char 'p', false =>
      if sync_os_clipboard then
        let r := ed.exec_os_clipboard env insertF .Paste
        (r.1, r.2.map (fun _ => ()))
      else ({ ed with text_area := (ed.text_area.paste).1 }, .ok ())
  | .Char 'u', false => (ed, .ok ())
  | .Char 'r', true => (ed, .ok ())
  | .Char 'x', false =>
      let ed := { ed with text_area := (ed.text_area.delete_next_char).1 }
      let r := ed.exec_os_clipboard env insertF .Copy
      (r.1, r.2.map (fun _ => ()))
  | .Char 'i', false => ({ ed with mode := .Insert }, .ok ())
  | .Char 'a', false =>
      ({ ed with text_area := ed.text_area.move_cursor .Forward, mode := .Insert }, .ok ())
  | .Char 'A', false =>
      ({ ed with text_area := ed.text_area.move_cursor .End, mode := .Insert }, .ok ())
  | .Char 'o', false =>
      ({ ed with
          text_area := (ed.text_area.move_cursor .End).insert_newline
          mode := .Insert }, .ok ())
  | .Char 'O', false =>
      ({ ed with
          text_area := ((ed.text_area.move_cursor .Head).insert_newline).move_cursor .Up
          mode := .Insert }, .ok ())
  | .Char 'I', false =>
      ({ ed with text_area := ed.text_area.move_cursor .Head, mode := .Insert }, .ok ())
  | .Char 'd', true =>
      ({ ed with text_area := ed.text_area.scroll .HalfPageDown }, .ok ())
  | .Char 'u', true =>
      ({ ed with text_area := ed.text_area.scroll .HalfPageUp }, .ok ())
  | .Char 'f', true =>
      ({ ed with text_area := ed.text_area.scroll .PageDown }, .ok ())
  | .Char 'b', true =>
      ({ ed with text_area := ed.text_area.scroll .PageUp }, .ok ())
  | _, _ => (ed, .ok ())

/- The `u` key runs the widget undo and Ctrl+r the widget redo; the
history is not part of the model (no claim concerns it), so both arms
above leave the text area unchanged. -/

/-- `Editor::handle_input_visual_only` (tier 2): `d`, `y`, `c` on a
modifier-free event in Visual mode; the returned flag reports whether
the event was consumed. -/
def Editor.handle_input_visual_only (ed : Editor) (env : ClipEnv)
    (insertF : String → TextArea → Option TextArea)
    (input : Input) (sync_os_clipboard : Bool) : Editor × Except String Bool :=
  if !input.modifiers.isEmpty then (ed, .ok false)
  else
    match input.key_code with
    | .Char 'd' =>
        if sync_os_clipboard then
          match ed.exec_os_clipboard env insertF .Cut with
          | (ed, .error e) => (ed, .error e)
          | (ed, .ok _) => (ed, .ok true)
        else ({ ed with text_area := (ed.text_area.cut).1 }, .ok true)
    | .Char 'y' =>
        let step :=
          if sync_os_clipboard then ed.exec_os_clipboard env insertF .Copy
          else ({ ed with text_area := ed.text_area.copy }, .ok .Handled)
        match step with
        | (ed, .error e) => (ed, .error e)
        | (ed, .ok _) => (ed.set_editor_mode .Normal, .ok true)
    | .Char 'c' =>
        let step :=
          if sync_os_clipboard then ed.exec_os_clipboard env insertF .Copy
          else ({ ed with text_area := (ed.text_area.cut).1 }, .ok .Handled)
        match step with
        | (ed, .error e) => (ed, .error e)
        | (ed, .ok _) => (ed.set_editor_mode .Insert, .ok true)
    | _ => (ed, .ok false)

/-- First-refusal routing of an input to the active entry box: the box
consumes the event, and a submitted line goes through `append_entry`.
This block appears verbatim at the top of both `handle_input` and
`handle_input_prioritized` in the source. -/
def Editor.route_entry_box (ed : Editor) (now : Nat × Nat) (input : Input)
    (app : App) : Editor × Except String HandleInputReturnType :=
  match ed.entry_box.handle_input input with
  | (box, .Submitted line) =>
      (({ ed with entry_box := box }).append_entry now line app, .ok .Handled)
  | (box, .Handled) => ({ ed with entry_box := box }, .ok .Handled)

/-- The tier dispatch statement of `handle_input`: default navigation
first, then the Visual-only commands, then the motion table. -/
def Editor.dispatch_tiers (ed : Editor) (env : ClipEnv)
    (insertF : String → TextArea → Option TextArea)
    (input : Input) (sync_os_clipboard : Bool) : Editor × Except String Unit :=
  if is_default_navigation input then
    ({ ed with text_area := (ed.text_area.input input).1 }, .ok ())
  else if ed.mode = .Visual then
    match ed.handle_input_visual_only env insertF input sync_os_clipboard with
    | (ed, .error e) => (ed, .error e)
    | (ed, .ok true) => (ed, .ok ())
    | (ed, .ok false) => ed.handle_vim_motions env insertF input sync_os_clipboard
  else ed.handle_vim_motions env insertF input sync_os_clipboard

/-- `Editor::handle_input`: the general navigation/motion path (called
with the editor not in Insert mode). An active entry box gets first
refusal; with no current entry everything else is swallowed; otherwise
the event is dispatched through the tiers, a cleared selection in
Visual mode forces Normal mode, `is_dirty` is set and `has_unsaved`
recomputed. -/
def Editor.handle_input (ed : Editor) (env : ClipEnv)
    (insertF : String → TextArea → Option TextArea)
    (now : Nat × Nat) (input : Input) (app : App) :
    Editor × Except String HandleInputReturnType :=
  if ed.entry_box.is_active then ed.route_entry_box now input app
  else if app.get_current_entry.isNone then (ed, .ok .Handled)
  else
    match ed.dispatch_tiers env insertF input app.settings.sync_os_clipboard with
    | (ed, .error e) => (ed, .error e)
    | (ed, .ok ()) =>
        let ed :=
          if !ed.text_area.is_selecting && ed.mode = .Visual then
            ed.set_editor_mode .Normal
          else ed
        (Editor.refresh_has_unsaved app { ed with is_dirty := true }, .ok .Handled)

/-- `Editor::handle_input_prioritized`: first-refusal path for the
active entry box and Insert mode (with the OS clipboard chords when
`sync_os_clipboard` is set). -/
def Editor.handle_input_prioritized (ed : Editor) (env : ClipEnv)
    (insertF : String → TextArea → Option TextArea)
    (now : Nat × Nat) (input : Input) (app : App) :
    Editor × Except String HandleInputReturnType :=
  if ed.entry_box.is_active then ed.route_entry_box now input app
  else if ed.mode = .Insert then
    let has_ctrl := input.modifiers.ctrl
    let osStep : Option (Editor × Except String HandleInputReturnType) :=
      if app.settings.sync_os_clipboard then
        if input.key_code = .Char 'x' && has_ctrl then
          some (ed.exec_os_clipboard env insertF .Cut)
        else if input.key_code = .Char 'c' && has_ctrl then
          some (ed.exec_os_clipboard env insertF .Copy)
        else if input.key_code = .Char 'y' && has_ctrl then
          some (ed.exec_os_clipboard env insertF .Paste)
        else none
      else none
    match osStep with
    | some (ed, .error e) => (ed, .error e)
    | some (ed, .ok _) => (ed, .ok .Handled)
    | none =>
        let r := ed.text_area.input input
        let ed := { ed with text_area := r.1 }
        if r.2 then
          (Editor.refresh_has_unsaved app { ed with is_dirty := true }, .ok .Handled)
        else (ed, .ok .Handled)
  else (ed, .ok .NotFound)

/-- The derived dirty value of the specification: `has_unsaved` is true
iff `is_dirty` and the newline-joined buffer differs from the backing
entry content. -/
def hasUnsavedSpec (app : App) (ed : Editor) : Bool :=
  ed.is_dirty &&
    (match app.get_current_entry with
     | some entry => entry.content != ed.get_content
     | none => false)

/-! Helper lemmas shared by the claim proofs. -/

theorem str_append_empty (s : String) : s ++ "" = s := by
  cases s with
  | mk data =>
      show String.mk (data ++ []) = String.mk data
      rw [List.append_nil]

theorem str_append_ne_empty_left (a b : String) (h : ¬(a.data = [])) :
    ¬(a ++ b = "") := by
  intro hab
  apply h
  have hd : (a ++ b).data = ([] : List Char) := by rw [hab]
  rw [String.data_append] at hd
  exact (List.append_eq_nil.mp hd).1

theorem fmt_line_ne_empty (now : Nat × Nat) (t : String) :
    ¬(fmtTimestamp now ++ " " ++ t = "") := by
  apply str_append_ne_empty_left
  intro h
  have : ¬((fmtTimestamp now ++ " ").data = []) := by
    have h1 : ¬((fmtTimestamp now).data = []) := by
      show ¬(("[" ++ pad2 now.1 ++ ":" ++ pad2 now.2 ++ "]").data = [])
      intro hd
      rw [String.data_append, String.data_append, String.data_append,
        String.data_append] at hd
      have := (List.append_eq_nil.mp
        ((List.append_eq_nil.mp ((List.append_eq_nil.mp
          ((List.append_eq_nil.mp hd).1)).1)).1)).1
      simp at this
    intro hd
    rw [String.data_append] at hd
    exact h1 (List.append_eq_nil.mp hd).1
  exact this h

theorem strTake_full (s : String) : strTake s s.data.length = s := by
  cases s with
  | mk data => show String.mk (data.take data.length) = String.mk data
               rw [List.take_length]

theorem strDrop_full (s : String) : strDrop s s.data.length = "" := by
  cases s with
  | mk data => show String.mk (data.drop data.length) = String.mk []
               rw [List.drop_length]

/-- Recomputation always lands `has_unsaved` exactly on the derived
specification value of the refreshed state. -/
theorem refresh_has_unsaved_spec (app : App) (ed : Editor) :
    (Editor.refresh_has_unsaved app ed).has_unsaved
      = hasUnsavedSpec app (Editor.refresh_has_unsaved app ed) := by
  cases hd : ed.is_dirty <;>
    cases hc : app.get_current_entry <;>
      simp [Editor.refresh_has_unsaved, hasUnsavedSpec, Editor.get_content,
        App.get_current_entry, hd, hc]

/-- Refreshing touches no field other than `has_unsaved`. -/
theorem refresh_frame (app : App) (ed : Editor) :
    (Editor.refresh_has_unsaved app ed).text_area = ed.text_area
      ∧ (Editor.refresh_has_unsaved app ed).mode = ed.mode
      ∧ (Editor.refresh_has_unsaved app ed).is_dirty = ed.is_dirty
      ∧ (Editor.refresh_has_unsaved app ed).entry_box = ed.entry_box := by
  exact ⟨rfl, rfl, rfl, rfl⟩

/-! Concrete fixtures used by the claim theorems and witnesses. -/

/-- A working OS clipboard environment. -/
def envOk : ClipEnv := ⟨none, .ok "", none⟩

/-- An OS clipboard that cannot be opened. -/
def envBad : ClipEnv := ⟨some "no display", .ok "", none⟩

/-- An OS clipboard that opens but refuses writes. -/
def envSetBad : ClipEnv := ⟨none, .ok "", some "denied"⟩

/-- An OS clipboard whose read yields the string "b". -/
def envGetB : ClipEnv := ⟨none, .ok "b", none⟩

/-- A store with one current entry "ab", local clipboard policy. -/
def appLocal : App := ⟨some ⟨"ab"⟩, [(1, ⟨"ab"⟩)], ⟨false⟩⟩

/-- The same store with the OS-sync clipboard policy. -/
def appSync : App := ⟨some ⟨"ab"⟩, [(1, ⟨"ab"⟩)], ⟨true⟩⟩

/-- A store with no current entry. -/
def appNoEntry : App := ⟨none, [], ⟨false⟩⟩

/-- Normal mode, buffer "ab", cursor after the first char, inactive
entry box, clean flags. -/
def edNormal1 : Editor :=
  ⟨⟨["ab"], (0, 1), none, ""⟩, ⟨TextArea.new [""], false⟩, .Normal, true, false, false⟩

/-- Visual mode with the selection anchored at the start of "ab" and
the cursor after the first char (so the selected span is "a"). -/
def edVisual1 : Editor :=
  ⟨⟨["ab"], (0, 1), some (0, 0), ""⟩, ⟨TextArea.new [""], false⟩, .Visual, true, false, false⟩

/-- C1: movement through `handle` leaves the line content untouched but
the source sets `is_dirty` unconditionally after every handled event
(editor/mod.rs line 320), so a bare `h` marks a clean editor dirty,
against the claim that movement never marks dirty. -/
theorem c1_movement_sets_dirty :
    (edNormal1.handle_input envOk realInsert (14, 30) ⟨.Char 'h', noMods⟩ appLocal).1.text_area.lines
        = edNormal1.text_area.lines
      ∧ edNormal1.is_dirty = false
      ∧ (edNormal1.handle_input envOk realInsert (14, 30) ⟨.Char 'h', noMods⟩ appLocal).1.is_dirty = true
      ∧ (edNormal1.handle_input envOk realInsert (14, 30) ⟨.Char 'h', noMods⟩ appLocal).2
        = .ok .Handled := by
  exact ⟨rfl, rfl, rfl, rfl⟩

/-- Editor state for the C2 counterexample: Visual mode with a
selection, active entry box, dirty flags set. -/
def edSwitch : Editor :=
  ⟨⟨["x", "y"], (1, 1), some (0, 0), "z"⟩, ⟨TextArea.new [""], true⟩, .Visual, true, true, true⟩

/-- Store for the C2 claims: a current entry "x" and a stored entry 7
with two-line content. -/
def appSwitch : App := ⟨some ⟨"x"⟩, [(7, ⟨"hello\nworld"⟩)], ⟨false⟩⟩

/-- C2 counterexample: `set_current_entry(None)` neither resets the
mode to Normal, nor clears or deactivates the EntryBox, nor resets
`is_dirty`/`has_unsaved`, contradicting the entry-switch contract of
the claim. -/
theorem c2_counterexample :
    (edSwitch.set_current_entry none appSwitch).mode = .Visual
      ∧ (edSwitch.set_current_entry none appSwitch).entry_box.is_active = true
      ∧ (edSwitch.set_current_entry none appSwitch).is_dirty = true
      ∧ (edSwitch.set_current_entry none appSwitch).has_unsaved = true := by
  exact ⟨rfl, rfl, rfl, rfl⟩

/-- C2 (amended): the entry switch rebuilds the buffer from the store
content with the cursor at end-of-content and clears `is_dirty` when
the entry is found, empties the buffer and leaves `is_dirty` unchanged
when the id is none or not found, recomputes `has_unsaved`, and leaves
the mode and the EntryBox untouched. -/
theorem c2_entry_switch (entry_id : Option Nat) (app : App) (ed : Editor) :
    (ed.set_current_entry entry_id app).mode = ed.mode
      ∧ (ed.set_current_entry entry_id app).entry_box = ed.entry_box
      ∧ (ed.set_current_entry entry_id app).is_active = ed.is_active
      ∧ (match entry_id with
         | some id =>
             match app.get_entry id with
             | some entry =>
                 (ed.set_current_entry entry_id app).text_area.lines
                     = (if (rustLines entry.content).isEmpty then [""]
                        else rustLines entry.content)
                   ∧ (ed.set_current_entry entry_id app).text_area.cursor
                     = ((ed.set_current_entry entry_id app).text_area.lines.length - 1,
                        (lineAt (ed.set_current_entry entry_id app).text_area.lines
                          ((ed.set_current_entry entry_id app).text_area.lines.length - 1)).data.length)
                   ∧ (ed.set_current_entry entry_id app).is_dirty = false
             | none =>
                 (ed.set_current_entry entry_id app).text_area = TextArea.empty
                   ∧ (ed.set_current_entry entry_id app).is_dirty = ed.is_dirty
         | none =>
             (ed.set_current_entry entry_id app).text_area = TextArea.empty
               ∧ (ed.set_current_entry entry_id app).is_dirty = ed.is_dirty)
      ∧ (ed.set_current_entry entry_id app).has_unsaved
        = hasUnsavedSpec app (ed.set_current_entry entry_id app) := by
  have hspec : ∀ e : Editor, (Editor.refresh_has_unsaved app e).has_unsaved
      = hasUnsavedSpec app (Editor.refresh_has_unsaved app e) :=
    fun e => refresh_has_unsaved_spec app e
  cases entry_id with
  | none =>
      refine ⟨rfl, rfl, rfl, ⟨rfl, rfl⟩, hspec _⟩
  | some id =>
      cases hget : app.get_entry id with
      | none =>
          simp only [Editor.set_current_entry, hget]
          exact ⟨rfl, rfl, rfl, ⟨rfl, rfl⟩, hspec _⟩
      | some entry =>
          simp only [Editor.set_current_entry, hget]
          refine ⟨rfl, rfl, rfl, ⟨rfl, ?_, rfl⟩, hspec _⟩
          simp [TextArea.move_cursor, TextArea.new, lineAt, Editor.refresh_has_unsaved]

/-- Appending an entry ends in a recomputation, so its result satisfies
the derived dirty specification. -/
theorem append_entry_spec (ed : Editor) (now : Nat × Nat) (t : String) (app : App) :
    (ed.append_entry now t app).has_unsaved
      = hasUnsavedSpec app (ed.append_entry now t app) := by
  unfold Editor.append_entry
  exact refresh_has_unsaved_spec app _

/-- Routing an event into the entry box keeps `has_unsaved` on the
derived value: a submission recomputes it, and a plain consumption
changes neither the buffer nor the flags. -/
theorem route_entry_box_has_unsaved (ed : Editor) (now : Nat × Nat)
    (input : Input) (app : App)
    (hinv : ed.has_unsaved = hasUnsavedSpec app ed) :
    (ed.route_entry_box now input app).1.has_unsaved
      = hasUnsavedSpec app (ed.route_entry_box now input app).1 := by
  unfold Editor.route_entry_box
  cases hr : ed.entry_box.handle_input input with
  | mk box res =>
      cases res with
      | Submitted line =>
          simp only [hr]
          exact append_entry_spec _ _ _ _
      | Handled =>
          simp only [hr]
          simpa [hasUnsavedSpec, Editor.get_content] using hinv

/-- Insert mode on buffer "a" with cursor at its end, dirty and
unsaved, inactive entry box. -/
def edInsertA : Editor :=
  ⟨⟨["a"], (0, 1), none, ""⟩, ⟨TextArea.new [""], false⟩, .Insert, true, true, true⟩

/-- Store whose current entry content is "ab", OS-sync policy. -/
def appSyncAB : App := ⟨some ⟨"ab"⟩, [], ⟨true⟩⟩

/-- C3 counterexample: in Insert mode with OS sync, Ctrl+y pastes "b"
after "a", making the buffer equal the stored content "ab"; the event
is handled, yet `has_unsaved` is left true because the clipboard path
patches it directly instead of recomputing, so the derived value
(false) and the observed value (true) disagree after a processed
event. -/
theorem c3_counterexample :
    (edInsertA.handle_input_prioritized envGetB realInsert (1, 1)
        ⟨.Char 'y', ⟨true, false, false⟩⟩ appSyncAB).2 = .ok .Handled
      ∧ (edInsertA.handle_input_prioritized envGetB realInsert (1, 1)
          ⟨.Char 'y', ⟨true, false, false⟩⟩ appSyncAB).1.has_unsaved = true
      ∧ hasUnsavedSpec appSyncAB
          (edInsertA.handle_input_prioritized envGetB realInsert (1, 1)
            ⟨.Char 'y', ⟨true, false, false⟩⟩ appSyncAB).1 = false := by
  refine ⟨?_, ?_, ?_⟩ <;> rfl

/-- C3 (amended): every event that `handle` processes to completion
leaves `has_unsaved` equal to the derived value (recomputation is the
last step), provided it was in sync before the event; but the
insert-mode OS-clipboard path of `handle_prioritized` patches
`has_unsaved` directly to true on a successful paste, with no final
recomputation. -/
theorem c3_has_unsaved_recompute (env : ClipEnv)
    (insertF : String → TextArea → Option TextArea)
    (now : Nat × Nat) (input : Input) (app : App) (ed : Editor) :
    (ed.has_unsaved = hasUnsavedSpec app ed →
      ∀ e r, ed.handle_input env insertF now input app = (e, .ok r) →
        e.has_unsaved = hasUnsavedSpec app e)
    ∧ (∀ (s : String) (ta : TextArea) (a b : Bool),
        ed.entry_box.is_active = false → ed.mode = .Insert →
        app.settings.sync_os_clipboard = true → env.new_err = none →
        env.get_result = .ok s → ¬(s = "") → insertF s ed.text_area = some ta →
        ed.handle_input_prioritized env insertF now ⟨.Char 'y', ⟨true, a, b⟩⟩ app
          = ({ ed with text_area := ta, is_dirty := true, has_unsaved := true },
              .ok .Handled)) := by
  constructor
  · intro hinv e r h
    unfold Editor.handle_input at h
    by_cases hb : ed.entry_box.is_active
    · rw [if_pos hb] at h
      have h1 : (ed.route_entry_box now input app).1 = e := by rw [h]
      rw [← h1]
      exact route_entry_box_has_unsaved ed now input app hinv
    · rw [if_neg hb] at h
      by_cases hc : app.get_current_entry.isNone
      · rw [if_pos hc] at h
        rw [Prod.mk.injEq] at h
        rw [← h.1]
        exact hinv
      · rw [if_neg hc] at h
        cases hstep : ed.dispatch_tiers env insertF input app.settings.sync_os_clipboard with
        | mk ed1 res =>
            rw [hstep] at h
            cases res with
            | error msg => simp at h
            | ok u =>
                cases u
                simp only [Prod.mk.injEq] at h
                rw [← h.1]
                exact refresh_has_unsaved_spec app _
  · intro s ta a b hbox hmode hsync hnew hget hs hins
    unfold Editor.handle_input_prioritized
    rw [if_neg (by simp [hbox]), if_pos hmode]
    simp [hsync, Editor.exec_os_clipboard, hnew, hget, hs, hins]

/-- The single-character newline split never produces an empty list. -/
theorem splitOnChar_ne_nil (sep : Char) (cs : List Char) :
    ¬(splitOnChar sep cs = []) := by
  induction cs with
  | nil => simp [splitOnChar]
  | cons c rest ih =>
      simp only [splitOnChar]
      split
      · simp
      · split
        · simp
        · simp

/-- Inserting a string never touches the selection anchor. -/
theorem insert_str_selection (ta : TextArea) (s : String) :
    (ta.insert_str s).1.selectionStart = ta.selectionStart := by
  unfold TextArea.insert_str
  split
  · rfl
  · split <;> rfl

/-- Inserting a non-empty string always reports a modification. -/
theorem insert_str_snd (ta : TextArea) (s : String) (hs : ¬(s = "")) :
    (ta.insert_str s).2 = true := by
  unfold TextArea.insert_str
  rw [if_neg hs]
  cases h : strSplitNewline s with
  | nil =>
      exact absurd (List.map_eq_nil_iff.mp h) (splitOnChar_ne_nil _ _)
  | cons a t => cases t <;> rfl

/-- Appending a timestamped entry line preserves the mode and the
selection flag (the rebuild fallback is unreachable because the
formatted line is never empty). -/
theorem append_entry_mode_sel (ed : Editor) (now : Nat × Nat) (t : String)
    (app : App) :
    (ed.append_entry now t app).mode = ed.mode
      ∧ (ed.append_entry now t app).text_area.is_selecting
        = ed.text_area.is_selecting := by
  unfold Editor.append_entry
  cases hins : ed.text_area.insert_str (fmtTimestamp now ++ " " ++ t) with
  | mk ta b =>
      cases b with
      | false =>
          have h2 := insert_str_snd ed.text_area (fmtTimestamp now ++ " " ++ t)
            (fmt_line_ne_empty now t)
          rw [hins] at h2
          simp at h2
      | true =>
          simp only [hins]
          have hsel := insert_str_selection ed.text_area (fmtTimestamp now ++ " " ++ t)
          rw [hins] at hsel
          refine ⟨rfl, ?_⟩
          show (ta.insert_newline).selectionStart.isSome = ed.text_area.selectionStart.isSome
          rw [show (ta.insert_newline).selectionStart = ta.selectionStart from rfl, hsel]

/-- Entry-box routing never changes the mode or the selection flag. -/
theorem route_entry_box_mode_sel (ed : Editor) (now : Nat × Nat)
    (input : Input) (app : App) :
    (ed.route_entry_box now input app).1.mode = ed.mode
      ∧ (ed.route_entry_box now input app).1.text_area.is_selecting
        = ed.text_area.is_selecting := by
  unfold Editor.route_entry_box
  cases hr : ed.entry_box.handle_input input with
  | mk box res =>
      cases res with
      | Submitted line =>
          simp only [hr]
          exact append_entry_mode_sel _ _ _ _
      | Handled => simp [hr]

/-- C4 counterexample: from Visual mode with an anchored selection, the
motion-table command `i` transitions to Insert directly (bypassing
`set_editor_mode`), so the selection anchor survives into Insert mode,
contradicting the claim that every Visual-to-Insert transition cancels
the selection. -/
theorem c4_counterexample :
    edVisual1.mode = .Visual
      ∧ (edVisual1.handle_input envOk realInsert (14, 30)
          ⟨.Char 'i', noMods⟩ appLocal).1.mode = .Insert
      ∧ (edVisual1.handle_input envOk realInsert (14, 30)
          ⟨.Char 'i', noMods⟩ appLocal).1.text_area.is_selecting = true
      ∧ (edVisual1.handle_input envOk realInsert (14, 30)
          ⟨.Char 'i', noMods⟩ appLocal).2 = .ok .Handled := by
  exact ⟨rfl, rfl, rfl, rfl⟩

/-- C4 (amended): the invariant holds for transitions made through
`set_editor_mode` (entering Visual from Normal anchors the selection at
the cursor; leaving Visual for Normal or Insert cancels it), and after
any event completed by `handle` the editor is never observed in Visual
mode without a selection (the forced Visual-to-Normal transition);
but mode entries dispatched through the motion table set the mode
directly, so a selection can survive into Insert mode. -/
theorem c4_mode_selection_invariant (ed : Editor) (m : EditorMode) :
    (ed.mode = .Normal → m = .Visual →
        (ed.set_editor_mode m).text_area.selectionStart = some ed.text_area.cursor
          ∧ (ed.set_editor_mode m).mode = .Visual)
    ∧ (ed.mode = .Visual → (m = .Normal ∨ m = .Insert) →
        (ed.set_editor_mode m).text_area.selectionStart = none
          ∧ (ed.set_editor_mode m).mode = m)
    ∧ (∀ env insertF now input app e r,
        (ed.mode = .Visual → ed.text_area.is_selecting = true) →
        ed.handle_input env insertF now input app = (e, .ok r) →
        e.mode = .Visual → e.text_area.is_selecting = true) := by
  refine ⟨?_, ?_, ?_⟩
  · intro h1 h2
    subst h2
    simp [Editor.set_editor_mode, h1, TextArea.start_selection]
  · intro h1 h2
    rcases h2 with h2 | h2 <;> subst h2 <;>
      simp [Editor.set_editor_mode, h1, TextArea.cancel_selection]
  · intro env insertF now input app e r hpre h hmode
    unfold Editor.handle_input at h
    by_cases hb : ed.entry_box.is_active
    · rw [if_pos hb] at h
      have h1 : (ed.route_entry_box now input app).1 = e := by rw [h]
      obtain ⟨hm, hs⟩ := route_entry_box_mode_sel ed now input app
      rw [h1] at hm hs
      rw [hs]
      exact hpre (hm ▸ hmode)
    · rw [if_neg hb] at h
      by_cases hc : app.get_current_entry.isNone
      · rw [if_pos hc] at h
        rw [Prod.mk.injEq] at h
        rw [← h.1] at hmode ⊢
        exact hpre hmode
      · rw [if_neg hc] at h
        cases hstep : ed.dispatch_tiers env insertF input app.settings.sync_os_clipboard with
        | mk ed1 res =>
            rw [hstep] at h
            cases res with
            | error msg => simp at h
            | ok u =>
                cases u
                simp only [Prod.mk.injEq] at h
                rw [← h.1] at hmode ⊢
                by_cases hcond :
                    (!ed1.text_area.is_selecting && ed1.mode = .Visual) = true
                · rw [if_pos hcond] at hmode
                  exact absurd hmode (by simp [Editor.set_editor_mode,
                    Editor.refresh_has_unsaved])
                · rw [if_neg hcond] at hmode ⊢
                  have hm1 : ed1.mode = .Visual := hmode
                  rw [hm1] at hcond
                  simp at hcond
                  exact hcond

/-- C5: in Visual mode with OS sync, `c` executes a clipboard Copy (not
Cut), so the selected text stays in the buffer even though the mode is
forced to Insert; the local-policy branch of the same arm does cut.
The claim (and the spec) require a cut under both policies. -/
theorem c5_visual_c_os_sync_copies :
    (edVisual1.handle_input envOk realInsert (14, 30) ⟨.Char 'c', noMods⟩ appSync).1.text_area.lines
        = edVisual1.text_area.lines
      ∧ (edVisual1.handle_input envOk realInsert (14, 30) ⟨.Char 'c', noMods⟩ appSync).1.mode
        = .Insert
      ∧ (edVisual1.handle_input envOk realInsert (14, 30) ⟨.Char 'c', noMods⟩ appSync).2
        = .ok .Handled
      ∧ (edVisual1.handle_input envOk realInsert (14, 30) ⟨.Char 'c', noMods⟩ appLocal).1.text_area.lines
        = ["b"] := by
  exact ⟨rfl, rfl, rfl, rfl⟩

/-- C6 counterexample: with the local clipboard policy, `D`, `C` and
`x` still open the OS clipboard unconditionally, so an unavailable OS
clipboard turns them into errors, contradicting the claim that they
succeed without OS clipboard I/O under the local policy. -/
theorem c6_counterexample :
    appLocal.settings.sync_os_clipboard = false
      ∧ (edNormal1.handle_input envBad realInsert (14, 30) ⟨.Char 'D', noMods⟩ appLocal).2
        = .error (mapClipboardError "no display")
      ∧ (edNormal1.handle_input envBad realInsert (14, 30) ⟨.Char 'C', noMods⟩ appLocal).2
        = .error (mapClipboardError "no display")
      ∧ (edNormal1.handle_input envBad realInsert (14, 30) ⟨.Char 'x', noMods⟩ appLocal).2
        = .error (mapClipboardError "no display") := by
  exact ⟨rfl, rfl, rfl, rfl⟩

/-- When the OS clipboard cannot be opened, a clipboard Copy fails with
the wrapped error and leaves the editor unchanged. -/
theorem exec_copy_new_err (ed : Editor) (env : ClipEnv)
    (insertF : String → TextArea → Option TextArea) (d : String)
    (h : env.new_err = some d) :
    ed.exec_os_clipboard env insertF .Copy = (ed, .error (mapClipboardError d)) := by
  unfold Editor.exec_os_clipboard
  rw [h]

/-- C6 (amended): under the local policy, `p` and the Visual commands
`d`/`y`/`c` perform no OS clipboard I/O (their outcome is independent
of the clipboard environment), `p` always succeeds and pasting an
empty register is a no-op; but `D`, `C` and `x` invoke the OS
clipboard copy regardless of policy and fail when it is unavailable. -/
theorem c6_local_policy (env env2 : ClipEnv)
    (insertF insertF2 : String → TextArea → Option TextArea)
    (ed : Editor) (d : String) :
    (ed.handle_vim_motions env insertF ⟨.Char 'p', noMods⟩ false
        = ed.handle_vim_motions env2 insertF2 ⟨.Char 'p', noMods⟩ false)
      ∧ (ed.handle_vim_motions env insertF ⟨.Char 'p', noMods⟩ false).2 = .ok ()
      ∧ (ed.text_area.yank = "" →
          (ed.handle_vim_motions env insertF ⟨.Char 'p', noMods⟩ false).1 = ed)
      ∧ (ed.handle_input_visual_only env insertF ⟨.Char 'd', noMods⟩ false
          = ed.handle_input_visual_only env2 insertF2 ⟨.Char 'd', noMods⟩ false)
      ∧ (ed.handle_input_visual_only env insertF ⟨.Char 'y', noMods⟩ false
          = ed.handle_input_visual_only env2 insertF2 ⟨.Char 'y', noMods⟩ false)
      ∧ (ed.handle_input_visual_only env insertF ⟨.Char 'c', noMods⟩ false
          = ed.handle_input_visual_only env2 insertF2 ⟨.Char 'c', noMods⟩ false)
      ∧ (env.new_err = some d →
          (ed.handle_vim_motions env insertF ⟨.Char 'D', noMods⟩ false).2
              = .error (mapClipboardError d)
            ∧ (ed.handle_vim_motions env insertF ⟨.Char 'C', noMods⟩ false).2
              = .error (mapClipboardError d)
            ∧ (ed.handle_vim_motions env insertF ⟨.Char 'x', noMods⟩ false).2
              = .error (mapClipboardError d)) := by
  refine ⟨rfl, rfl, ?_, rfl, rfl, rfl, ?_⟩
  · intro hy
    show ({ ed with text_area := (ed.text_area.paste).1 }) = ed
    simp [TextArea.paste, TextArea.insert_str, hy]
  · intro hnew
    refine ⟨?_, ?_, ?_⟩
    · show ((Editor.exec_os_clipboard
          { ed with text_area := (ed.text_area.delete_line_by_end).1 }
          env insertF .Copy).2.map (fun _ => ())) = .error (mapClipboardError d)
      rw [exec_copy_new_err _ env insertF d hnew]
      rfl
    · show (match Editor.exec_os_clipboard
            { ed with text_area := (ed.text_area.delete_line_by_end).1 }
            env insertF .Copy with
          | (ed, .error e) => (ed, Except.error e)
          | (ed, .ok _) => ({ ed with mode := .Insert }, Except.ok ())).2
        = .error (mapClipboardError d)
      rw [exec_copy_new_err _ env insertF d hnew]
    · show ((Editor.exec_os_clipboard
          { ed with text_area := (ed.text_area.delete_next_char).1 }
          env insertF .Copy).2.map (fun _ => ())) = .error (mapClipboardError d)
      rw [exec_copy_new_err _ env insertF d hnew]
      rfl

/-- C7: in OS-sync mode the Cut mutates the buffer before the OS write
attempt, and a failed write surfaces the human-readable clipboard
message while the buffer keeps the post-cut content: the cut is not
rolled back. -/
theorem c7_cut_precedes_os_write (env : ClipEnv)
    (insertF : String → TextArea → Option TextArea) (d : String) (ed : Editor)
    (hnew : env.new_err = none) (hset : env.set_err = some d) :
    (ed.exec_os_clipboard env insertF .Cut).1.text_area = (ed.text_area.cut).1
      ∧ (ed.exec_os_clipboard env insertF .Cut).2 = .error (mapClipboardError d) := by
  unfold Editor.exec_os_clipboard
  rw [hnew]
  cases hc : ed.text_area.cut with
  | mk ta b => cases b <;> simp [hset, hc]

/-- String length is additive over concatenation. -/
theorem str_length_append (a b : String) :
    (a ++ b).length = a.length + b.length := by
  cases a with
  | mk da =>
      cases b with
      | mk db =>
          show (String.mk (da ++ db)).length = _
          simp [String.length]

/-- C8: an OS-sync Paste of the empty clipboard string is a no-op that
succeeds and leaves the editor untouched; a paste whose content the
buffer rejects fails with the paste-rejected message, leaves the
editor untouched, and that message is distinct from every OS-access
error message. -/
theorem c8_paste_empty_and_reject (env : ClipEnv)
    (insertF : String → TextArea → Option TextArea) (ed : Editor) (s : String)
    (hnew : env.new_err = none) (hget : env.get_result = .ok s) :
    (s = "" → ed.exec_os_clipboard env insertF .Paste = (ed, .ok .Handled))
      ∧ (¬(s = "") → insertF s ed.text_area = none →
          ed.exec_os_clipboard env insertF .Paste = (ed, .error pasteRejectMsg))
      ∧ (∀ e, ¬(pasteRejectMsg = mapClipboardError e)) := by
  refine ⟨?_, ?_, ?_⟩
  · intro hs
    subst hs
    simp [Editor.exec_os_clipboard, hnew, hget]
  · intro hs hrej
    simp [Editor.exec_os_clipboard, hnew, hget, hs, hrej]
  · intro e he
    have hlen := congrArg String.length he
    rw [mapClipboardError, str_length_append] at hlen
    have h1 : pasteRejectMsg.length = 32 := rfl
    have h2 : ("Error while communicating with the operation system clipboard.\nError Details: " : String).length = 78 := rfl
    omega

/-- Editor whose entry box is active and holds "bought milk", over an
empty one-line buffer. -/
def edEntryMilk : Editor :=
  ⟨TextArea.new [""], ⟨TextArea.new ["bought milk"], true⟩, .Normal, true, false, false⟩

/-- Store whose current entry has empty content. -/
def appEmptyEntry : App := ⟨some ⟨""⟩, [], ⟨false⟩⟩

/-- C9 counterexample: submitting "bought milk" at 14:32 inserts the
timestamped line at the cursor and then a newline, so the buffer's
final line is empty — the timestamped text ends up on the
second-to-last line, not on a final line matching the claimed
pattern (the final line does not even contain the submitted text). -/
theorem c9_counterexample :
    (edEntryMilk.handle_input envOk realInsert (14, 32) ⟨.Enter, noMods⟩ appEmptyEntry).2
        = .ok .Handled
      ∧ (edEntryMilk.handle_input envOk realInsert (14, 32) ⟨.Enter, noMods⟩ appEmptyEntry).1.text_area.lines
        = ["[14:32] bought milk", ""]
      ∧ ((edEntryMilk.handle_input envOk realInsert (14, 32) ⟨.Enter, noMods⟩ appEmptyEntry).1.text_area.lines.getLastD "?")
        = ""
      ∧ (List.isSuffixOf "bought milk".data
          ((edEntryMilk.handle_input envOk realInsert (14, 32) ⟨.Enter, noMods⟩ appEmptyEntry).1.text_area.lines.getLastD "?").data)
        = false := by
  exact ⟨rfl, rfl, rfl, rfl⟩

/-- C10 counterexample: with no entry loaded, the active entry box
(the initial state of a fresh editor) still consumes input, and a
typed character followed by Enter appends a timestamped line to the
buffer — both events return Handled, yet the buffer does not remain a
single empty line. -/
theorem c10_counterexample :
    Editor.new.text_area.lines = [""]
      ∧ appNoEntry.get_current_entry = none
      ∧ (Editor.new.handle_input envOk realInsert (9, 5) ⟨.Char 'x', noMods⟩ appNoEntry).2
        = .ok .Handled
      ∧ ((Editor.new.handle_input envOk realInsert (9, 5) ⟨.Char 'x', noMods⟩ appNoEntry).1.handle_input
          envOk realInsert (9, 5) ⟨.Enter, noMods⟩ appNoEntry).2 = .ok .Handled
      ∧ ((Editor.new.handle_input envOk realInsert (9, 5) ⟨.Char 'x', noMods⟩ appNoEntry).1.handle_input
          envOk realInsert (9, 5) ⟨.Enter, noMods⟩ appNoEntry).1.text_area.lines
        = ["[09:05] x", ""] := by
  exact ⟨rfl, rfl, rfl, rfl, rfl⟩

/-- C10 (amended): when no entry is loaded and the entry box is
inactive, every input event through `handle` returns Handled with the
editor state completely unchanged; with the entry box active the event
is routed to the box instead, and a submission mutates the buffer even
without a loaded entry. -/
theorem c10_no_entry_swallowed (env : ClipEnv)
    (insertF : String → TextArea → Option TextArea) (now : Nat × Nat)
    (input : Input) (app : App) (ed : Editor)
    (hentry : app.get_current_entry = none)
    (hbox : ed.entry_box.is_active = false) :
    ed.handle_input env insertF now input app = (ed, .ok .Handled) := by
  unfold Editor.handle_input
  rw [if_neg (by simp [hbox]), if_pos (by simp [hentry])]

/-- Inserting a newline-free string into a one-line empty buffer with
the cursor at the origin replaces the line and puts the cursor after
the inserted text. -/
theorem insert_str_single_line (ta : TextArea) (s : String) (hs : ¬(s = ""))
    (hsplit : strSplitNewline s = [s])
    (hlines : ta.lines = [""]) (hcur : ta.cursor = (0, 0)) :
    ta.insert_str s = ({ ta with lines := [s], cursor := (0, s.data.length) }, true) := by
  unfold TextArea.insert_str
  rw [if_neg hs, hsplit, hlines, hcur]
  simp [lineAt, strTake, strDrop, str_append_empty]

/-- Splitting at the end of a single full line appends an empty line
and moves the cursor to its head. -/
theorem insert_newline_at_line_end (ta : TextArea) (s : String)
    (hlines : ta.lines = [s]) (hcur : ta.cursor = (0, s.data.length)) :
    ta.insert_newline = { ta with lines := [s, ""], cursor := (1, 0) } := by
  unfold TextArea.insert_newline
  rw [hlines, hcur]
  simp [lineAt]
  exact ⟨strTake_full s, strDrop_full s⟩

/-- Appending a submitted entry over an empty one-line buffer with the
cursor at the origin: the timestamped line lands as the first line,
followed by an empty line; the editor is marked dirty, the entry box
is untouched by this step, and `has_unsaved` is recomputed. -/
theorem append_entry_at_empty (ed : Editor) (now : Nat × Nat) (t : String) (app : App)
    (hsplit : strSplitNewline (fmtTimestamp now ++ " " ++ t) = [fmtTimestamp now ++ " " ++ t])
    (hlines : ed.text_area.lines = [""])
    (hcur : ed.text_area.cursor = (0, 0)) :
    (ed.append_entry now t app).text_area.lines = [fmtTimestamp now ++ " " ++ t, ""]
      ∧ (ed.append_entry now t app).is_dirty = true
      ∧ (ed.append_entry now t app).entry_box = ed.entry_box
      ∧ (ed.append_entry now t app).has_unsaved
        = hasUnsavedSpec app (ed.append_entry now t app) := by
  have hs : ¬(fmtTimestamp now ++ " " ++ t = "") := fmt_line_ne_empty now t
  have hins := insert_str_single_line ed.text_area _ hs hsplit hlines hcur
  have hnl := insert_newline_at_line_end
    ({ ed.text_area with
        lines := [fmtTimestamp now ++ " " ++ t]
        cursor := (0, (fmtTimestamp now ++ " " ++ t).data.length) })
    (fmtTimestamp now ++ " " ++ t) rfl rfl
  unfold Editor.append_entry
  simp only [hins, hnl]
  exact ⟨rfl, rfl, rfl, refresh_has_unsaved_spec app _⟩

/-- C9 (amended): submitting non-whitespace text from the active entry
box on an empty one-line buffer with the cursor at the origin inserts
the line `<timestamp> <text>` at the cursor followed by a newline, so
the buffer becomes that line plus a trailing empty line (the
timestamped line is second-to-last, not last); the editor is marked
dirty, the entry box clears itself, and `has_unsaved` is recomputed. -/
theorem c9_entry_submit (env : ClipEnv)
    (insertF : String → TextArea → Option TextArea) (hh mm : Nat) (t : String)
    (app : App) (ed : Editor)
    (hbox : ed.entry_box.is_active = true)
    (hline : ed.entry_box.input_area.lines = [t])
    (htrim : strTrim t = t)
    (ht : ¬(t = ""))
    (hsplit : strSplitNewline (fmtTimestamp (hh, mm) ++ " " ++ t)
      = [fmtTimestamp (hh, mm) ++ " " ++ t])
    (hlines : ed.text_area.lines = [""])
    (hcur : ed.text_area.cursor = (0, 0)) :
    (ed.handle_input env insertF (hh, mm) ⟨.Enter, noMods⟩ app).2 = .ok .Handled
      ∧ (ed.handle_input env insertF (hh, mm) ⟨.Enter, noMods⟩ app).1.text_area.lines
        = [fmtTimestamp (hh, mm) ++ " " ++ t, ""]
      ∧ (ed.handle_input env insertF (hh, mm) ⟨.Enter, noMods⟩ app).1.is_dirty = true
      ∧ (ed.handle_input env insertF (hh, mm) ⟨.Enter, noMods⟩ app).1.entry_box.input_area.lines
        = [""]
      ∧ (ed.handle_input env insertF (hh, mm) ⟨.Enter, noMods⟩ app).1.has_unsaved
        = hasUnsavedSpec app (ed.handle_input env insertF (hh, mm) ⟨.Enter, noMods⟩ app).1 := by
  have hbx : ed.entry_box.handle_input ⟨.Enter, noMods⟩
      = ({ ed.entry_box with input_area := TextArea.new [""] }, .Submitted t) := by
    unfold EntryBox.handle_input
    rw [hline]
    simp [htrim, ht]
  have happ := append_entry_at_empty
    ({ ed with entry_box := { ed.entry_box with input_area := TextArea.new [""] } })
    (hh, mm) t app hsplit hlines hcur
  unfold Editor.handle_input Editor.route_entry_box
  rw [if_pos hbox, hbx]
  refine ⟨rfl, happ.1, happ.2.1, ?_, happ.2.2.2⟩
  rw [happ.2.2.1]
  rfl

/-! Witnesses: each hypothesis-bearing claim theorem applied at a
concrete input with its hypotheses discharged. -/

/-- An insertion capability that rejects everything (a concrete
instance of the external buffer-insert collaborator for witnesses). -/
def rejectInsert : String → TextArea → Option TextArea := fun _ _ => none

/-- An OS clipboard whose read yields the string "x". -/
def envGetX : ClipEnv := ⟨none, .ok "x", none⟩

/-- An editor with an inactive entry box over an empty buffer. -/
def edInactiveBox : Editor :=
  ⟨TextArea.new [""], ⟨TextArea.new [""], false⟩, .Normal, false, false, false⟩

/-- Witness for C3 at concrete inputs. -/
theorem c3_witness :
    (edNormal1.handle_input envOk realInsert (14, 30) ⟨.Char 'h', noMods⟩ appLocal).1.has_unsaved
        = hasUnsavedSpec appLocal
          (edNormal1.handle_input envOk realInsert (14, 30) ⟨.Char 'h', noMods⟩ appLocal).1
      ∧ edInsertA.handle_input_prioritized envGetB realInsert (1, 1)
          ⟨.Char 'y', ⟨true, false, false⟩⟩ appSyncAB
        = ({ edInsertA with
              text_area := ⟨["ab"], (0, 2), none, ""⟩
              is_dirty := true
              has_unsaved := true }, .ok .Handled) :=
  ⟨(c3_has_unsaved_recompute envOk realInsert (14, 30) ⟨.Char 'h', noMods⟩
      appLocal edNormal1).1 rfl _ .Handled rfl,
   (c3_has_unsaved_recompute envGetB realInsert (1, 1)
      ⟨.Char 'y', ⟨true, false, false⟩⟩ appSyncAB edInsertA).2 "b"
      ⟨["ab"], (0, 2), none, ""⟩ false false rfl rfl rfl rfl rfl (by decide) rfl⟩

/-- Witness for C4 at concrete inputs. -/
theorem c4_witness :
    (edNormal1.set_editor_mode .Visual).text_area.selectionStart
        = some edNormal1.text_area.cursor
      ∧ (edVisual1.set_editor_mode .Normal).text_area.selectionStart = none
      ∧ (edVisual1.handle_input envOk realInsert (14, 30)
          ⟨.Char 'h', noMods⟩ appLocal).1.text_area.is_selecting = true :=
  ⟨((c4_mode_selection_invariant edNormal1 .Visual).1 rfl rfl).1,
   ((c4_mode_selection_invariant edVisual1 .Normal).2.1 rfl (Or.inl rfl)).1,
   (c4_mode_selection_invariant edVisual1 .Normal).2.2 envOk realInsert (14, 30)
     ⟨.Char 'h', noMods⟩ appLocal
     (edVisual1.handle_input envOk realInsert (14, 30) ⟨.Char 'h', noMods⟩ appLocal).1
     .Handled (fun _ => rfl) rfl rfl⟩

/-- Witness for C6 at concrete inputs. -/
theorem c6_witness :
    (edNormal1.handle_vim_motions envOk realInsert ⟨.Char 'p', noMods⟩ false).1
        = edNormal1
      ∧ (edNormal1.handle_vim_motions envBad realInsert ⟨.Char 'D', noMods⟩ false).2
        = .error (mapClipboardError "no display") :=
  ⟨(c6_local_policy envOk envOk realInsert realInsert edNormal1 "no display").2.2.1 rfl,
   ((c6_local_policy envBad envOk realInsert realInsert edNormal1 "no display").2.2.2.2.2.2 rfl).1⟩

/-- Witness for C7 at concrete inputs. -/
theorem c7_witness :
    (edVisual1.exec_os_clipboard envSetBad realInsert .Cut).1.text_area
        = (edVisual1.text_area.cut).1
      ∧ (edVisual1.exec_os_clipboard envSetBad realInsert .Cut).2
        = .error (mapClipboardError "denied") :=
  c7_cut_precedes_os_write envSetBad realInsert "denied" edVisual1 rfl rfl

/-- Witness for C8 at concrete inputs. -/
theorem c8_witness :
    Editor.new.exec_os_clipboard envOk rejectInsert .Paste = (Editor.new, .ok .Handled)
      ∧ Editor.new.exec_os_clipboard envGetX rejectInsert .Paste
        = (Editor.new, .error pasteRejectMsg)
      ∧ ¬(pasteRejectMsg = mapClipboardError "no display") :=
  ⟨(c8_paste_empty_and_reject envOk rejectInsert Editor.new "" rfl rfl).1 rfl,
   (c8_paste_empty_and_reject envGetX rejectInsert Editor.new "x" rfl rfl).2.1
     (by decide) rfl,
   (c8_paste_empty_and_reject envGetX rejectInsert Editor.new "x" rfl rfl).2.2
     "no display"⟩

/-- Witness for C9 at concrete inputs. -/
theorem c9_witness :
    (edEntryMilk.handle_input envOk realInsert (14, 32) ⟨.Enter, noMods⟩ appEmptyEntry).1.text_area.lines
        = [fmtTimestamp (14, 32) ++ " " ++ "bought milk", ""]
      ∧ (edEntryMilk.handle_input envOk realInsert (14, 32) ⟨.Enter, noMods⟩ appEmptyEntry).1.is_dirty
        = true :=
  ⟨(c9_entry_submit envOk realInsert 14 32 "bought milk" appEmptyEntry edEntryMilk
      rfl rfl rfl (by decide) rfl rfl rfl).2.1,
   (c9_entry_submit envOk realInsert 14 32 "bought milk" appEmptyEntry edEntryMilk
      rfl rfl rfl (by decide) rfl rfl rfl).2.2.1⟩

/-- Witness for C10 at concrete inputs. -/
theorem c10_witness :
    edInactiveBox.handle_input envOk realInsert (9, 5) ⟨.Char 'q', noMods⟩ appNoEntry
      = (edInactiveBox, .ok .Handled) :=
  c10_no_entry_swallowed envOk realInsert (9, 5) ⟨.Char 'q', noMods⟩ appNoEntry
    edInactiveBox rfl rfl

end TuiLogue
